import Mathlib

/-!
Shallow embedding of the SwiftAssist support-chat widget (`src/src/App.tsx`)
for checking its specification.  JSON values returned by the remote agent are
modelled by the inductive type `JVal`; JavaScript truthiness and the `||`
default operator are modelled explicitly, because the normalisation code in
the source relies on them throughout.
-/

/-- A decoded JSON value, as handled by the response normaliser.  Numbers are
modelled as rationals. -/
inductive JVal where
  | jnull
  | jbool (b : Bool)
  | jnum (q : ℚ)
  | jstr (s : String)
  | jarr (elems : List JVal)
  | jobj (fields : List (String × JVal))

open JVal

/-- JavaScript truthiness of a value: `null`, `false`, `0` and `""` are falsy;
every object and array is truthy. -/
def truthy : JVal → Bool
  | jnull => false
  | jbool b => b
  | jnum q => if q = 0 then false else true
  | jstr s => if s = "" then false else true
  | jarr _ => true
  | jobj _ => true

/-- Property access `v.name`: defined (first binding) on objects, `undefined`
(`none`) on every other value. -/
def getField : JVal → String → Option JVal
  | jobj fields, name => (fields.find? (fun p => p.1 = name)).map (·.2)
  | _, _ => none

/-- Truthiness of a possibly-undefined value (`undefined` is falsy). -/
def otruthy : Option JVal → Bool
  | none => false
  | some v => truthy v

/-- The JavaScript default idiom `a || b` where `a` may be `undefined`:
yields `a` when truthy, otherwise `b`. -/
def jsOrD (a : Option JVal) (b : JVal) : JVal :=
  match a with
  | some v => if truthy v then v else b
  | none => b

example : truthy (jstr "") = false := by rfl
example : jsOrD (some (jstr "")) (jnum 3) = jnum 3 := by rfl
example : getField (jobj [("a", jnum 1), ("a", jnum 2)]) "a" = some (jnum 1) := by rfl

/-- Field access chained through a possibly-undefined value. -/
def oGet (v : Option JVal) (name : String) : Option JVal :=
  v.bind (fun w => getField w name)

/-- Extract a string value, `none` when the value is absent or not a string. -/
def asString : Option JVal → Option String
  | some (jstr s) => some s
  | _ => none

/-- Little-endian decimal digits of `n` as characters; the first argument is
recursion fuel (any value `≥ n` is enough). -/
def natChars : ℕ → ℕ → List Char
  | 0, _ => []
  | _ + 1, 0 => []
  | fuel + 1, n + 1 => Nat.digitChar ((n + 1) % 10) :: natChars fuel ((n + 1) / 10)

/-- Decimal rendering of a natural number (the JS template interpolation
`${n}` of a nonnegative integer such as `Date.now()`). -/
def natStr (n : ℕ) : String :=
  if n = 0 then "0" else String.mk ((natChars n n).reverse)

/-- JS `String.prototype.toLowerCase()`, character-wise (`Char.toLower`
agrees with it on ASCII, which is all the keyword scan needs). -/
def jsToLower (s : String) : String :=
  String.mk (s.data.map Char.toLower)

/-- Test whether `sub` occurs at the start of `hay` (character lists). -/
def strPre : List Char → List Char → Bool
  | [], _ => true
  | _ :: _, [] => false
  | a :: as, b :: bs => a == b && strPre as bs

/-- Test whether `needle` occurs contiguously somewhere in the character list. -/
def strHasAux (needle : List Char) : List Char → Bool
  | [] => needle.isEmpty
  | c :: rest => strPre needle (c :: rest) || strHasAux needle rest

/-- JavaScript `s.includes(sub)`: contiguous-substring test. -/
def jsIncludes (s sub : String) : Bool :=
  strHasAux sub.data s.data

/-- The five `Math.random()` draws a single synthesized support reply may
consume: three topic picks, the confidence score and the processing time. -/
structure Rands where
  r0 : ℚ
  r1 : ℚ
  r2 : ℚ
  r3 : ℚ
  r4 : ℚ

/-- The all-zero random stream, used for concrete evaluations. -/
def rands0 : Rands := ⟨0, 0, 0, 0, 0⟩

/-- JS `Number.prototype.toFixed(1)` of `q`, as the integer number of tenths:
round-half-up of `q * 10` (the source only ever formats values in `[0.1, 2)`,
where ideal rounding matches the float computation). -/
def toFixed1Int (q : ℚ) : ℤ :=
  round (q * 10)

/-- The string produced by `(q).toFixed(1)` for nonnegative `q`. -/
def toFixed1Str (q : ℚ) : String :=
  natStr ((toFixed1Int q).toNat / 10) ++ "." ++ natStr ((toFixed1Int q).toNat % 10)

/-- The fixed topic list of `createMockSupportResponse`. -/
def supportTopics : List String :=
  ["Orders", "Shipping", "Returns", "Products", "Warranty", "Account"]

/-- Model of `topics[Math.floor(Math.random() * topics.length)]`: an out-of-range index
(possible only if the draw leaves `[0, 1)`) yields JS `undefined`, modelled as
`jnull` inside the array. -/
def pickTopic (r : ℚ) : JVal :=
  ((supportTopics.get? (Int.toNat ⌊r * 6⌋)).map jstr).getD jnull

/-- Canned template for order-related queries (`createMockSupportResponse`). -/
def orderMessage : String :=
  "I've received your question about orders. Our ordering system is designed to be simple and secure. You can track your order status, modify shipping details, or check estimated delivery times from your account dashboard. For specific order inquiries, please provide your order number."

/-- Canned template for shipping-related queries. -/
def shippingMessage : String :=
  "Great question about shipping! We offer various shipping options including standard, express, and overnight delivery. Most orders ship within 1-2 business days. You can track your shipment in real-time with the tracking number provided in your confirmation email."

/-- Canned template for return-related queries. -/
def returnMessage : String :=
  "I understand you have a question about returns. Our return policy allows returns within 30 days of purchase. Items should be in original condition. You can initiate a return from your account or contact customer service for assistance with the process."

/-- Canned template for all other queries. -/
def genericMessage : String :=
  "Thank you for your question! I'm here to help you with any inquiries about our products and services. Based on your question, I'll provide you with helpful information and suggestions for your next steps."

/-- Model of `createMockSupportResponse` (App.tsx lines 80-121): synthesize a canned
support reply from the query text.  `0.8 + Math.random() * 0.19` et al. are
written with the rationals `4/5`, `19/100`, `1/2`, `3/2`. -/
def createMockSupportResponse (query : String) (rs : Rands) : JVal :=
  let isOrderRelated := jsIncludes (jsToLower query) "order"
  let isShippingRelated := jsIncludes (jsToLower query) "ship"
  let isReturnRelated := jsIncludes (jsToLower query) "return"
  let message :=
    if isOrderRelated then orderMessage
    else if isShippingRelated then shippingMessage
    else if isReturnRelated then returnMessage
    else genericMessage
  let confidence : ℚ := 4/5 + rs.r3 * (19/100)
  jobj
    [("response", jobj
      [("message", jstr message),
       ("suggested_topics", jarr [pickTopic rs.r0, pickTopic rs.r1, pickTopic rs.r2]),
       ("confidence_score", jnum confidence)]),
     ("metadata", jobj
      [("query_type", jstr
        (if isOrderRelated then "order"
         else if isShippingRelated then "shipping"
         else if isReturnRelated then "return"
         else "general")),
       ("processing_time", jstr (toFixed1Str (1/2 + rs.r4 * (3/2)) ++ "s"))])]

/-- Model of `createMockFeedbackResponse` (App.tsx lines 123-136): synthesized feedback
acknowledgment; `now` is the `Date.now()` reading and `r` the single random
draw for the processing time (`0.1 + Math.random() * 0.4`). -/
def createMockFeedbackResponse (now : ℕ) (r : ℚ) : JVal :=
  jobj
    [("response", jobj
      [("acknowledgment", jstr "Thank you for your feedback!"),
       ("feedback_processed", jbool true),
       ("feedback_type", jstr "positive")]),
     ("metadata", jobj
      [("processing_time", jstr (toFixed1Str (1/10 + r * (2/5)) ++ "s")),
       ("response_id", jstr ("resp-" ++ natStr now))])]

/-- Step 4 of the normaliser: best-effort wrapping of a generic object
(`{ response: data.response || data.message || data, metadata: data.metadata || {} }`). -/
def wrapGenericObject (data : JVal) : JVal :=
  jobj
    [("response", jsOrD (getField data "response") (jsOrD (getField data "message") data)),
     ("metadata", jsOrD (getField data "metadata") (jobj []))]

/-- Model of `validateSupportAgentResponse` (App.tsx lines 43-78).  The source guards
with `if (!data) return null`, then tries the canonical shape (truthiness of
both `data.response` and `data.metadata`), then the `agent_response` wrapper,
then a plain string (handed to `createMockSupportResponse` as the query), then
any other object (`typeof data === 'object'`, which also covers arrays), and
returns `null` for the rest.  The `try`/`catch` wrapper never fires: no
operation in the body throws. -/
def validateSupportAgentResponse (data : JVal) (rs : Rands) : Option JVal :=
  if truthy data then
    if otruthy (getField data "response") && otruthy (getField data "metadata") then
      some data
    else if otruthy (getField data "agent_response") then
      match getField data "agent_response" with
      | some ar =>
        some (jobj
          [("response", jsOrD (getField ar "response") ar),
           ("metadata", jsOrD (getField ar "metadata") (jobj []))])
      | none => none
    else
      match data with
      | jstr s => some (createMockSupportResponse s rs)
      | jobj _ => some (wrapGenericObject data)
      | jarr _ => some (wrapGenericObject data)
      | _ => none
  else none

example : jsIncludes (jsToLower "check my ORDER please") "order" = true := by rfl
example : jsIncludes (jsToLower "hello there") "order" = false := by rfl
example : natStr 120 = "120" := by rfl
example : validateSupportAgentResponse (jstr "") rands0 = none := by rfl

/-- Whitespace characters removed by `String.prototype.trim()` (the ASCII
ones; the source never feeds it exotic Unicode spaces). -/
def isWsChar (c : Char) : Bool :=
  c == ' ' || c == '\t' || c == '\n' || c == '\r'

/-- JS `s.trim()`: strip leading and trailing whitespace. -/
def jsTrim (s : String) : String :=
  String.mk (((s.data.dropWhile isWsChar).reverse.dropWhile isWsChar).reverse)

/-- JS template-literal rendering `${v}` of a value.  Claims only ever
interpolate strings; the other cases follow JS conventions (the array case is
abbreviated to the empty string, and numbers use the rational printer). -/
def jsToString : JVal → String
  | jnull => "null"
  | jbool b => if b then "true" else "false"
  | jnum q => toString q
  | jstr s => s
  | jarr _ => ""
  | jobj _ => "[object Object]"

/-- A chat message (`interface Message`, App.tsx lines 4-15).  Field values
that come from the untyped remote reply are kept as JSON values; the optional
fields are `none` when absent (JS `undefined`). -/
structure Message where
  id : String
  text : JVal
  isUser : Bool
  timestamp : ℕ
  suggestedTopics : Option JVal
  confidenceScore : Option JVal
  queryType : Option JVal
  processingTime : Option JVal
  responseId : Option JVal
  feedbackSubmitted : Option JVal

/-- The component state the claims touch: the message list, the input text
and the `isTyping` pending flag. -/
structure ChatState where
  messages : List Message
  inputText : String
  isTyping : Bool

/-- A recorded outbound agent call: which agent id and which message text
were sent. -/
structure AgentCall where
  agentId : String
  message : String

/-- Constant `AGENT_IDS.support`. -/
def supportAgentId : String := "68e2b77f615699d53b624bca"

/-- Constant `AGENT_IDS.feedback`. -/
def feedbackAgentId : String := "68e2b78a1d634c83109811d8"

/-- The user message appended by `handleSendMessage` (App.tsx lines 210-215);
`now` is the `Date.now()` reading. -/
def mkUserMessage (text : String) (now : ℕ) : Message :=
  { id := "msg-" ++ natStr now
    text := jstr (jsTrim text)
    isUser := true
    timestamp := now
    suggestedTopics := none
    confidenceScore := none
    queryType := none
    processingTime := none
    responseId := none
    feedbackSubmitted := none }

/-- The assistant message built from the agent reply (App.tsx lines 233-247).
`now` models the `Date.now()` readings at reply time (the id uses
`Date.now() + 1`, the synthesized response id uses `Date.now()`). -/
def mkAiMessage (response : JVal) (now : ℕ) : Message :=
  let responseBlock := jsOrD (getField response "response") response
  let metadataBlock := jsOrD (getField response "metadata") (jobj [])
  { id := "msg-" ++ natStr (now + 1)
    text := jsOrD (getField responseBlock "message")
      (jsOrD (getField responseBlock "text")
        (jsOrD (getField response "text")
          (jsOrD (getField response "message")
            (jstr "I'm here to help! Let me know what you need assistance with."))))
    isUser := false
    timestamp := now
    suggestedTopics := some (jsOrD (getField responseBlock "suggested_topics")
      (jsOrD (getField responseBlock "suggestedTopics") (jarr [])))
    confidenceScore := some (jsOrD (getField responseBlock "confidence_score")
      (jsOrD (getField responseBlock "confidenceScore")
        (jsOrD (getField metadataBlock "confidence_score") (jnum (4/5)))))
    queryType := some (jsOrD (getField metadataBlock "query_type")
      (jsOrD (getField metadataBlock "queryType")
        (jsOrD (getField responseBlock "query_type") (jstr "general"))))
    processingTime := some (jsOrD (getField metadataBlock "processing_time")
      (jsOrD (getField metadataBlock "processingTime") (jstr "0.5s")))
    responseId := some (jsOrD (getField responseBlock "response_id")
      (jstr ("resp-" ++ natStr now)))
    feedbackSubmitted := none }

/-- Behaviour of `callAgentAPI` for the support agent (App.tsx lines 142-205).  Here `outcome`
is `some parsedData` when the transport and JSON decoding succeed, `none` on a
thrown transport/parse error.  The `catch` returns a mock support reply, so
the call never rejects; on success the source computes
`validateSupportAgentResponse(parsedData) || createMockSupportResponse(message)`. -/
def callSupport (message : String) (outcome : Option JVal) (rs : Rands) : JVal :=
  match outcome with
  | some parsedData =>
    match validateSupportAgentResponse parsedData rs with
    | some v => jsOrD (some v) (createMockSupportResponse message rs)
    | none => createMockSupportResponse message rs
  | none => createMockSupportResponse message rs

/-- Behaviour of `callAgentAPI` for the feedback agent: on success the source returns
`parsedData || createMockFeedbackResponse()`; the `catch` also returns a mock
feedback reply, so this call never rejects either. -/
def callFeedback (outcome : Option JVal) (now : ℕ) (r : ℚ) : JVal :=
  match outcome with
  | some parsedData => jsOrD (some parsedData) (createMockFeedbackResponse now r)
  | none => createMockFeedbackResponse now r

/-- Model of `handleSendMessage` (App.tsx lines 207-264), as one synchronous step from
the awaited outcome: guard on blank text, append the user message, clear the
input, set the pending flag, call the support agent, append the assistant
message, clear the pending flag.  Because `callAgentAPI` never rejects for the
support agent, the `catch` (apology message) branch of the source is
unreachable.  Returns the new state and the outbound calls made. -/
def handleSendMessage (s : ChatState) (text : String) (tSend tReply : ℕ)
    (outcome : Option JVal) (rs : Rands) : ChatState × List AgentCall :=
  if jsTrim text = "" then (s, [])
  else
    let userMessage := mkUserMessage text tSend
    let reply := callSupport (jsTrim text) outcome rs
    let aiMessage := mkAiMessage reply tReply
    ({ messages := (s.messages ++ [userMessage]) ++ [aiMessage]
       inputText := ""
       isTyping := false },
     [{ agentId := supportAgentId, message := jsTrim text }])

/-- Form submission (App.tsx lines 286-289 and 463-481): the submit event can
only fire while the send button is enabled, i.e. when no reply is pending and
the input is not blank (`disabled={isTyping || !inputText.trim()}`; the text
input itself is also disabled while `isTyping`). -/
def submitForm (s : ChatState) (tSend tReply : ℕ) (outcome : Option JVal)
    (rs : Rands) : ChatState × List AgentCall :=
  if s.isTyping || jsTrim s.inputText = "" then (s, [])
  else handleSendMessage s s.inputText tSend tReply outcome rs

/-- Model of `handleTopicClick` (App.tsx lines 291-293): the help-topic buttons are
never disabled, so the click goes straight to `handleSendMessage`. -/
def topicClick (s : ChatState) (topic : String) (tSend tReply : ℕ)
    (outcome : Option JVal) (rs : Rands) : ChatState × List AgentCall :=
  handleSendMessage s ("Tell me about " ++ topic) tSend tReply outcome rs

/-- A suggested-topic chip click (App.tsx line 410): also never disabled. -/
def suggestedTopicClick (s : ChatState) (topic : String) (tSend tReply : ℕ)
    (outcome : Option JVal) (rs : Rands) : ChatState × List AgentCall :=
  handleSendMessage s topic tSend tReply outcome rs

/-- Model of `handleFeedback` (App.tsx lines 266-284): look up the message, bail out
when it is missing or its `responseId` is falsy, call the feedback agent
(whose reply is discarded and which never rejects, so the `catch` is
unreachable), then set the `feedbackSubmitted` flag on the target message. -/
def handleFeedback (s : ChatState) (messageId : String) (feedbackType : String)
    (outcome : Option JVal) (now : ℕ) (r : ℚ) : ChatState × List AgentCall :=
  match s.messages.find? (fun m => m.id = messageId) with
  | none => (s, [])
  | some message =>
    if otruthy message.responseId then
      let _reply := callFeedback outcome now r
      ({ messages := s.messages.map (fun msg =>
           if msg.id = messageId then { msg with feedbackSubmitted := some (jbool true) } else msg)
         inputText := s.inputText
         isTyping := s.isTyping },
       [{ agentId := feedbackAgentId
          message := "Feedback for response " ++ jsToString (message.responseId.getD jnull)
            ++ ": " ++ feedbackType }])
    else (s, [])

/-- Render condition of the feedback buttons for a message (App.tsx line 420):
`!message.isUser && message.responseId && !message.feedbackSubmitted`. -/
def feedbackControlsVisible (m : Message) : Bool :=
  !m.isUser && otruthy m.responseId && !(otruthy m.feedbackSubmitted)

example : jsTrim "   " = "" := by rfl
example : jsTrim " hi " = "hi" := by rfl

theorem jsOrD_of_falsy {a : Option JVal} (b : JVal) (h : otruthy a = false) :
    jsOrD a b = b := by
  cases a with
  | none => rfl
  | some v => simp only [otruthy] at h; simp [jsOrD, h]

theorem jsOrD_of_truthy {v : JVal} (b : JVal) (h : truthy v = true) :
    jsOrD (some v) b = v := by
  simp [jsOrD, h]

/-- C10: `handleSendMessage` on blank (empty or all-whitespace) text is a
complete no-op: the state is unchanged (no message appended, input not
cleared, pending flag untouched) and no remote call is made. -/
theorem C10_blank_send_is_noop (s : ChatState) (text : String) (tSend tReply : ℕ)
    (outcome : Option JVal) (rs : Rands) (h : jsTrim text = "") :
    handleSendMessage s text tSend tReply outcome rs = (s, []) := by
  simp [handleSendMessage, h]

/-- C10 witness: a whitespace-only submission leaves a concrete state (with
uncleared input text and a pending flag) untouched and makes no call. -/
theorem C10_blank_send_is_noop_witness :
    handleSendMessage ⟨[], "draft", false⟩ "  " 1 2 none rands0 = (⟨[], "draft", false⟩, []) :=
  C10_blank_send_is_noop ⟨[], "draft", false⟩ "  " 1 2 none rands0 (by rfl)

/-- C5: feedback on an unknown message id, or on a message whose
`responseId` is absent, is a silent no-op: state unchanged and no remote
call. -/
theorem C5_feedback_missing_target_noop (s : ChatState) (mid fb : String)
    (outcome : Option JVal) (now : ℕ) (r : ℚ)
    (h : s.messages.find? (fun m => m.id = mid) = none ∨
      ∃ m, s.messages.find? (fun m => m.id = mid) = some m ∧ m.responseId = none) :
    handleFeedback s mid fb outcome now r = (s, []) := by
  rcases h with h | ⟨m, hm, hr⟩
  · simp [handleFeedback, h]
  · simp [handleFeedback, hm, hr, otruthy]

/-- C5 witness: feedback aimed at a user message (which has no response id)
and at an id that matches nothing are both no-ops on a concrete state. -/
theorem C5_feedback_missing_target_noop_witness :
    handleFeedback ⟨[mkUserMessage "hi" 5], "", false⟩ "msg-5" "positive" none 7 0
      = (⟨[mkUserMessage "hi" 5], "", false⟩, []) :=
  C5_feedback_missing_target_noop ⟨[mkUserMessage "hi" 5], "", false⟩ "msg-5" "positive" none 7 0
    (Or.inr ⟨mkUserMessage "hi" 5, by rfl, rfl⟩)

/-- The pending state used to exhibit the unguarded topic-click path. -/
def pendingState : ChatState := ⟨[], "", true⟩

/-- C2 counterexample: with a reply pending (`isTyping = true`), clicking a
help topic still submits — it fires a support call and appends two messages —
so not every user-triggered submit path is rejected while a reply is pending. -/
theorem C2_counterexample_topic_click_while_pending :
    pendingState.isTyping = true ∧
    (topicClick pendingState "Orders" 1 2 none rands0).2
      = [{ agentId := supportAgentId, message := "Tell me about Orders" }] ∧
    (topicClick pendingState "Orders" 1 2 none rands0).1.messages.length = 2 ∧
    pendingState.messages.length = 0 :=
  ⟨rfl, rfl, rfl, rfl⟩

/-- C2 (amended): submission through the text-input form is rejected while a
reply is pending, because the input and the send button are disabled; the
topic-click paths are not guarded. -/
theorem C2_form_submit_rejected_while_pending (s : ChatState) (tSend tReply : ℕ)
    (outcome : Option JVal) (rs : Rands) (h : s.isTyping = true) :
    submitForm s tSend tReply outcome rs = (s, []) := by
  simp [submitForm, h]

/-- C2 witness: a concrete pending state with nonblank input text ignores the
form submission. -/
theorem C2_form_submit_rejected_while_pending_witness :
    submitForm ⟨[], "hello", true⟩ 1 2 none rands0 = (⟨[], "hello", true⟩, []) :=
  C2_form_submit_rejected_while_pending ⟨[], "hello", true⟩ 1 2 none rands0 rfl

/-- C8 counterexample: the normaliser does not keep a plain-string reply as
the message text — `"hello"` comes back as the canned generic template, not
as `"hello"`. -/
theorem C8_counterexample_string_not_kept :
    asString (oGet (oGet (validateSupportAgentResponse (jstr "hello") rands0) "response") "message")
      ≠ some "hello" := by
  decide

/-- C8 (amended): a nonempty plain-string reply is passed as the *query* to
`createMockSupportResponse`, which synthesizes a full canned reply around a
keyword-selected template (the string itself is not kept as the message
text); the empty string is falsy and is rejected by the `!data` guard
instead. -/
theorem C8_string_reply_feeds_mock (s : String) (rs : Rands) (h : s ≠ "") :
    validateSupportAgentResponse (jstr s) rs = some (createMockSupportResponse s rs) := by
  simp [validateSupportAgentResponse, truthy, getField, otruthy, h]

/-- C8 witness: the string reply `"hello"` produces exactly the synthesized
mock reply for query `"hello"`. -/
theorem C8_string_reply_feeds_mock_witness :
    validateSupportAgentResponse (jstr "hello") rands0
      = some (createMockSupportResponse "hello" rands0) :=
  C8_string_reply_feeds_mock "hello" rands0 (by decide)

/-- C3: on a failing transport call to the support endpoint the fallback
reply's query-type label follows the case-insensitive priority scan
"order" > "ship" > "return" > generic; in particular any query containing
"order" (in any case) yields the label "order". -/
theorem C3_fallback_query_type_priority (q : String) (rs : Rands) :
    (jsIncludes (jsToLower q) "order" = true →
      asString (oGet (getField (callSupport q none rs) "metadata") "query_type") = some "order") ∧
    (jsIncludes (jsToLower q) "order" = false → jsIncludes (jsToLower q) "ship" = true →
      asString (oGet (getField (callSupport q none rs) "metadata") "query_type") = some "shipping") ∧
    (jsIncludes (jsToLower q) "order" = false → jsIncludes (jsToLower q) "ship" = false →
      jsIncludes (jsToLower q) "return" = true →
      asString (oGet (getField (callSupport q none rs) "metadata") "query_type") = some "return") ∧
    (jsIncludes (jsToLower q) "order" = false → jsIncludes (jsToLower q) "ship" = false →
      jsIncludes (jsToLower q) "return" = false →
      asString (oGet (getField (callSupport q none rs) "metadata") "query_type") = some "general") := by
  refine ⟨fun h1 => ?_, fun h1 h2 => ?_, fun h1 h2 h3 => ?_, fun h1 h2 h3 => ?_⟩ <;>
    simp [callSupport, createMockSupportResponse, h1, oGet, getField, asString, List.find?]
  · simp [h1, h2]
  · simp [h1, h2, h3]
  · simp [h1, h2, h3]

/-- C3 witness: a transport-failed query containing "ORDER" gets the
query-type label "order". -/
theorem C3_fallback_query_type_priority_witness :
    asString (oGet (getField (callSupport "Where is my ORDER?" none rands0) "metadata") "query_type")
      = some "order" :=
  (C3_fallback_query_type_priority "Where is my ORDER?" rands0).1 (by decide)

/-- A reply that *has* both a `response` and a `metadata` field, but whose
`response` field holds the falsy value `""`. -/
def c1Input : JVal :=
  jobj [("response", jstr ""), ("metadata", jobj [("query_type", jstr "general")])]

/-- C1 counterexample: a reply with both fields present is not passed through
unchanged when the `response` field is falsy — the normaliser rebuilds it via
the generic-object branch, replacing the `response` slot (the source tests
truthiness, not presence). -/
theorem C1_counterexample_falsy_response_field :
    (getField c1Input "response").isSome = true ∧
    (getField c1Input "metadata").isSome = true ∧
    getField c1Input "response" = some (jstr "") ∧
    asString (oGet (validateSupportAgentResponse c1Input rands0) "response") ≠ some "" := by
  refine ⟨rfl, rfl, rfl, ?_⟩
  decide

/-- C1 (amended): a reply whose `response` and `metadata` fields are both
present *and truthy* is returned unchanged by the normaliser, for every
random stream — so no confidence or processing time is resampled. -/
theorem C1_canonical_shape_passthrough (d : JVal) (rs : Rands)
    (hresp : otruthy (getField d "response") = true)
    (hmeta : otruthy (getField d "metadata") = true) :
    validateSupportAgentResponse d rs = some d := by
  have htruthy : truthy d = true := by
    cases d <;> simp_all [getField, otruthy, truthy]
  simp [validateSupportAgentResponse, htruthy, hresp, hmeta]

/-- C1 witness: a concrete canonical-shaped reply is passed through
unchanged. -/
theorem C1_canonical_shape_passthrough_witness :
    validateSupportAgentResponse
      (jobj [("response", jobj [("message", jstr "hi")]),
             ("metadata", jobj [("query_type", jstr "general")])]) rands0
      = some (jobj [("response", jobj [("message", jstr "hi")]),
                    ("metadata", jobj [("query_type", jstr "general")])]) :=
  C1_canonical_shape_passthrough
    (jobj [("response", jobj [("message", jstr "hi")]),
           ("metadata", jobj [("query_type", jstr "general")])]) rands0 (by rfl) (by rfl)

/-- An assistant message carrying a (truthy) response id, not yet marked. -/
def fbMessage : Message :=
  ⟨"msg-1", jstr "Reply", false, 1, none, none, none, none, some (jstr "resp-1"), none⟩

/-- A user message, sitting next to `fbMessage` to exercise the frame. -/
def fbOther : Message := mkUserMessage "hi" 0

/-- A conversation state with one user message and one assistant message. -/
def fbState : ChatState := ⟨[fbOther, fbMessage], "", false⟩

/-- C4 counterexample: when the remote feedback call fails (`outcome = none`),
the conversation state is *not* left unchanged — the target message's
`feedbackSubmitted` flag is still set, because `callAgentAPI` swallows the
failure and returns a mock acknowledgment, so `handleFeedback` never reaches
its `catch`. -/
theorem C4_counterexample_failure_still_marks :
    fbState.messages.map (fun m => otruthy m.feedbackSubmitted) = [false, false] ∧
    (handleFeedback fbState "msg-1" "positive" none 5 0).1.messages.map
      (fun m => otruthy m.feedbackSubmitted) = [false, true] :=
  ⟨rfl, rfl⟩

/-- C4 (amended): a failing remote feedback call produces exactly the same
result — same new conversation state and same outbound call log — as a call
with any (e.g. successful) outcome: the failure is masked by the synthesized
acknowledgment and is invisible, with no user-facing error. -/
theorem C4_feedback_failure_same_as_success (s : ChatState) (mid fb : String)
    (outcome : Option JVal) (now : ℕ) (r : ℚ) :
    handleFeedback s mid fb none now r = handleFeedback s mid fb outcome now r := by
  rfl

/-- C6: after a successful feedback submission targeting an existing message
with a truthy response id, the target's `feedbackSubmitted` flag becomes
`true` and its feedback controls disappear, while its other fields and every
message at a different position with a different id are unchanged. -/
theorem C6_feedback_success_frame (s : ChatState) (mid fb : String) (reply : JVal)
    (now : ℕ) (r : ℚ) (m : Message)
    (hfind : s.messages.find? (fun x => x.id = mid) = some m)
    (hresp : otruthy m.responseId = true) :
    (handleFeedback s mid fb (some reply) now r).1.messages.length = s.messages.length ∧
    (∀ (i : ℕ) (old : Message), s.messages[i]? = some old → ¬(old.id = mid) →
      (handleFeedback s mid fb (some reply) now r).1.messages[i]? = some old) ∧
    (∀ (i : ℕ) (old : Message), s.messages[i]? = some old → old.id = mid →
      (handleFeedback s mid fb (some reply) now r).1.messages[i]?
        = some { old with feedbackSubmitted := some (jbool true) } ∧
      feedbackControlsVisible { old with feedbackSubmitted := some (jbool true) } = false) := by
  have hmsgs : (handleFeedback s mid fb (some reply) now r).1.messages
      = s.messages.map (fun msg =>
          if msg.id = mid then { msg with feedbackSubmitted := some (jbool true) } else msg) := by
    simp [handleFeedback, hfind, hresp]
  refine ⟨by rw [hmsgs]; exact List.length_map _ _, fun i old hold hne => ?_,
    fun i old hold heq => ⟨?_, ?_⟩⟩
  · rw [hmsgs, List.getElem?_map, hold]
    simp [hne]
  · rw [hmsgs, List.getElem?_map, hold]
    simp [heq]
  · simp [feedbackControlsVisible, otruthy, truthy]

/-- C6 witness: on the concrete two-message state, successful feedback for
`"msg-1"` marks exactly that message, keeps the neighbouring user message
as-is, and hides the feedback controls of the marked message. -/
theorem C6_feedback_success_frame_witness :
    (handleFeedback fbState "msg-1" "positive" (some (jobj [])) 5 0).1.messages[0]?
      = some fbOther ∧
    (handleFeedback fbState "msg-1" "positive" (some (jobj [])) 5 0).1.messages[1]?
      = some { fbMessage with feedbackSubmitted := some (jbool true) } ∧
    feedbackControlsVisible { fbMessage with feedbackSubmitted := some (jbool true) } = false :=
  ⟨(C6_feedback_success_frame fbState "msg-1" "positive" (jobj []) 5 0 fbMessage rfl rfl).2.1
      0 fbOther rfl (by decide),
   ((C6_feedback_success_frame fbState "msg-1" "positive" (jobj []) 5 0 fbMessage rfl rfl).2.2
      1 fbMessage rfl rfl).1,
   ((C6_feedback_success_frame fbState "msg-1" "positive" (jobj []) 5 0 fbMessage rfl rfl).2.2
      1 fbMessage rfl rfl).2⟩

theorem toFixed1Int_bounds (q : ℚ) (lo hi : ℤ)
    (h1 : (lo : ℚ) ≤ q * 10) (h2 : q * 10 < (hi : ℚ) + 1/2) :
    lo ≤ toFixed1Int q ∧ toFixed1Int q ≤ hi := by
  unfold toFixed1Int
  rw [round_eq]
  constructor
  · exact Int.le_floor.mpr (by linarith)
  · have h3 : ⌊q * 10 + 1/2⌋ < hi + 1 := Int.floor_lt.mpr (by push_cast; linarith)
    omega

/-- C7: every synthesized support reply carries a confidence score in
[0.8, 0.99], and the processing-time labels are `toFixed1Str t ++ "s"` — a
one-decimal number followed by "s" — whose displayed value
`toFixed1Int t / 10` lies in [0.5, 2.0] for the support endpoint and in
[0.1, 0.5] for the feedback endpoint, whenever the random draws lie in the
`Math.random()` range [0, 1). -/
theorem C7_synthesized_numeric_ranges (q : String) (now : ℕ) (rs : Rands) (rfb : ℚ)
    (h3a : 0 ≤ rs.r3) (h3b : rs.r3 < 1) (h4a : 0 ≤ rs.r4) (h4b : rs.r4 < 1)
    (hfa : 0 ≤ rfb) (hfb : rfb < 1) :
    (oGet (getField (createMockSupportResponse q rs) "response") "confidence_score"
        = some (jnum (4/5 + rs.r3 * (19/100))) ∧
      4/5 ≤ 4/5 + rs.r3 * (19/100) ∧ 4/5 + rs.r3 * (19/100) ≤ 99/100) ∧
    (oGet (getField (createMockSupportResponse q rs) "metadata") "processing_time"
        = some (jstr (toFixed1Str (1/2 + rs.r4 * (3/2)) ++ "s")) ∧
      1/2 ≤ (toFixed1Int (1/2 + rs.r4 * (3/2)) : ℚ) / 10 ∧
      (toFixed1Int (1/2 + rs.r4 * (3/2)) : ℚ) / 10 ≤ 2) ∧
    (oGet (getField (createMockFeedbackResponse now rfb) "metadata") "processing_time"
        = some (jstr (toFixed1Str (1/10 + rfb * (2/5)) ++ "s")) ∧
      1/10 ≤ (toFixed1Int (1/10 + rfb * (2/5)) : ℚ) / 10 ∧
      (toFixed1Int (1/10 + rfb * (2/5)) : ℚ) / 10 ≤ 1/2) := by
  obtain ⟨hsl, hsh⟩ := toFixed1Int_bounds (1/2 + rs.r4 * (3/2)) 5 20
    (by push_cast; nlinarith) (by push_cast; nlinarith)
  obtain ⟨hfl, hfh⟩ := toFixed1Int_bounds (1/10 + rfb * (2/5)) 1 5
    (by push_cast; nlinarith) (by push_cast; nlinarith)
  have hslq : (5 : ℚ) ≤ (toFixed1Int (1/2 + rs.r4 * (3/2)) : ℚ) := by exact_mod_cast hsl
  have hshq : (toFixed1Int (1/2 + rs.r4 * (3/2)) : ℚ) ≤ 20 := by exact_mod_cast hsh
  have hflq : (1 : ℚ) ≤ (toFixed1Int (1/10 + rfb * (2/5)) : ℚ) := by exact_mod_cast hfl
  have hfhq : (toFixed1Int (1/10 + rfb * (2/5)) : ℚ) ≤ 5 := by exact_mod_cast hfh
  refine ⟨⟨?_, by nlinarith, by nlinarith⟩, ⟨?_, by linarith, by linarith⟩,
    ⟨?_, by linarith, by linarith⟩⟩
  · simp [createMockSupportResponse, oGet, getField, List.find?]
  · simp [createMockSupportResponse, oGet, getField, List.find?]
  · simp [createMockFeedbackResponse, oGet, getField, List.find?]

/-- C7 witness: with all random draws at 0 the bounds hold for a concrete
query, timestamp and stream. -/
theorem C7_synthesized_numeric_ranges_witness :
    (oGet (getField (createMockSupportResponse "help" rands0) "response") "confidence_score"
        = some (jnum (4/5 + rands0.r3 * (19/100))) ∧
      4/5 ≤ 4/5 + rands0.r3 * (19/100) ∧ 4/5 + rands0.r3 * (19/100) ≤ 99/100) ∧
    (oGet (getField (createMockSupportResponse "help" rands0) "metadata") "processing_time"
        = some (jstr (toFixed1Str (1/2 + rands0.r4 * (3/2)) ++ "s")) ∧
      1/2 ≤ (toFixed1Int (1/2 + rands0.r4 * (3/2)) : ℚ) / 10 ∧
      (toFixed1Int (1/2 + rands0.r4 * (3/2)) : ℚ) / 10 ≤ 2) ∧
    (oGet (getField (createMockFeedbackResponse 3 0) "metadata") "processing_time"
        = some (jstr (toFixed1Str (1/10 + (0:ℚ) * (2/5)) ++ "s")) ∧
      1/10 ≤ (toFixed1Int (1/10 + (0:ℚ) * (2/5)) : ℚ) / 10 ∧
      (toFixed1Int (1/10 + (0:ℚ) * (2/5)) : ℚ) / 10 ≤ 1/2) :=
  C7_synthesized_numeric_ranges "help" 3 rands0 0 (le_refl 0) zero_lt_one
    (le_refl 0) zero_lt_one (le_refl 0) zero_lt_one

/-- Numeric value of a decimal digit character. -/
def digitVal (c : Char) : ℕ := c.toNat - 48

/-- Value of a little-endian decimal digit string. -/
def decodeDigits : List Char → ℕ
  | [] => 0
  | c :: cs => digitVal c + 10 * decodeDigits cs

theorem digitVal_digitChar (d : ℕ) (h : d < 10) : digitVal (Nat.digitChar d) = d := by
  interval_cases d <;> rfl

theorem decodeDigits_natChars : ∀ fuel n : ℕ, n ≤ fuel → decodeDigits (natChars fuel n) = n := by
  intro fuel
  induction fuel with
  | zero =>
    intro n hn
    have h0 : n = 0 := Nat.le_zero.mp hn
    subst h0
    rfl
  | succ fuel ih =>
    intro n hn
    cases n with
    | zero => rfl
    | succ m =>
      have hdiv : (m + 1) / 10 ≤ fuel := by
        have h1 : (m + 1) / 10 < m + 1 := Nat.div_lt_self (Nat.succ_pos m) (by norm_num)
        omega
      show decodeDigits (Nat.digitChar ((m + 1) % 10) :: natChars fuel ((m + 1) / 10)) = m + 1
      simp only [decodeDigits]
      rw [digitVal_digitChar _ (Nat.mod_lt _ (by norm_num)), ih _ hdiv]
      omega

theorem natStr_data_inj {a b : ℕ} (h : (natStr a).data = (natStr b).data) : a = b := by
  unfold natStr at h
  by_cases ha : a = 0 <;> by_cases hb : b = 0
  · omega
  · rw [if_pos ha, if_neg hb] at h
    have h0 : natChars b b = ['0'] := by
      have h1 : (natChars b b).reverse = ['0'] := by
        have : (String.mk ((natChars b b).reverse)).data = (natChars b b).reverse := rfl
        rw [this] at h
        exact h.symm.trans (by rfl)
      have h2 := congrArg List.reverse h1
      simpa using h2
    have hb' := decodeDigits_natChars b b le_rfl
    rw [h0] at hb'
    have : decodeDigits ['0'] = 0 := rfl
    omega
  · rw [if_neg ha, if_pos hb] at h
    have h0 : natChars a a = ['0'] := by
      have h1 : (natChars a a).reverse = ['0'] := by
        have : (String.mk ((natChars a a).reverse)).data = (natChars a a).reverse := rfl
        rw [this] at h
        exact h.trans (by rfl)
      have h2 := congrArg List.reverse h1
      simpa using h2
    have ha' := decodeDigits_natChars a a le_rfl
    rw [h0] at ha'
    have : decodeDigits ['0'] = 0 := rfl
    omega
  · rw [if_neg ha, if_neg hb] at h
    have h1 : (natChars a a).reverse = (natChars b b).reverse := h
    have h2 : natChars a a = natChars b b := by
      have h3 := congrArg List.reverse h1
      simpa using h3
    have ha' := decodeDigits_natChars a a le_rfl
    have hb' := decodeDigits_natChars b b le_rfl
    rw [h2] at ha'
    omega

/-- A remote reply that carries its own `response_id`. -/
def c9Reply : JVal :=
  jobj [("response", jobj [("message", jstr "ok"), ("response_id", jstr "resp-x")])]

/-- C9 counterexample: two distinct assistant messages built from remote
replies that both carry `response_id = "resp-x"` share the same response
identifier — the source takes `responseBlock.response_id` verbatim when it is
truthy, so per-session uniqueness is not guaranteed. -/
theorem C9_counterexample_duplicate_response_id :
    (mkAiMessage c9Reply 1).id ≠ (mkAiMessage c9Reply 2).id ∧
    asString (mkAiMessage c9Reply 1).responseId = some "resp-x" ∧
    asString (mkAiMessage c9Reply 2).responseId = some "resp-x" := by
  refine ⟨by decide, rfl, rfl⟩

/-- C9 (amended): response identifiers are synthesized as
`resp-<reply timestamp>` only when the remote reply has no truthy
`response_id`; two such assistant messages have distinct response
identifiers whenever their reply timestamps differ. -/
theorem C9_synthesized_response_ids_distinct (r1 r2 : JVal) (t1 t2 : ℕ)
    (h1 : otruthy (getField (jsOrD (getField r1 "response") r1) "response_id") = false)
    (h2 : otruthy (getField (jsOrD (getField r2 "response") r2) "response_id") = false)
    (hne : t1 ≠ t2) :
    (mkAiMessage r1 t1).responseId ≠ (mkAiMessage r2 t2).responseId := by
  have e1 : (mkAiMessage r1 t1).responseId = some (jstr ("resp-" ++ natStr t1)) := by
    simp only [mkAiMessage]
    rw [jsOrD_of_falsy _ h1]
  have e2 : (mkAiMessage r2 t2).responseId = some (jstr ("resp-" ++ natStr t2)) := by
    simp only [mkAiMessage]
    rw [jsOrD_of_falsy _ h2]
  rw [e1, e2]
  intro h
  have h3 : (("resp-" ++ natStr t1) : String) = "resp-" ++ natStr t2 := by
    have := Option.some.inj h
    exact jstr.inj this
  have h4 := congrArg String.data h3
  simp only [String.data_append] at h4
  have h5 : (natStr t1).data = (natStr t2).data := List.append_cancel_left h4
  exact hne (natStr_data_inj h5)

/-- C9 witness: two synthesized-id assistant messages from id-less replies at
timestamps 1 and 2 have distinct response identifiers. -/
theorem C9_synthesized_response_ids_distinct_witness :
    (mkAiMessage (jobj []) 1).responseId ≠ (mkAiMessage (jobj []) 2).responseId :=
  C9_synthesized_response_ids_distinct (jobj []) (jobj []) 1 2 rfl rfl (by decide)
